import Mathlib

/-!
Shallow embedding of the finance-tracker backend (`backend/main.go`): the
bucket-based key-value store, the per-entity CRUD handler bodies, and the
stats/dashboard aggregation endpoints, together with theorems settling the
spec claims about them.

Modelling conventions:
* A bolt bucket is an association list from ID string to record; `bucketPut`
  replaces in place or appends, `bucketDelete` removes the key, matching
  bolt `Put`/`Delete` on unique-key buckets.
* Go `float64` amounts become `ℚ`; Go `int` becomes `Int`; Go strings stay
  `String`.  The RFC3339-formatted clock reading and the nanosecond ID are
  passed to each handler as explicit `now` / `nanoId` arguments.
* A raw bucket (`RawBucket`) carries `Option record` values: `none` stands
  for stored bytes on which `json.Unmarshal` fails.  Handlers that abort on
  a decode error consume `scanDecode`; the stats/dashboard handlers, whose
  Go code ignores `Unmarshal` and `View` errors, treat a failed decode as
  the Go zero value of the record type, exactly as the source does.
-/

set_option autoImplicit false

namespace FinApp

/-- A bolt bucket: association list from ID key to decoded record. -/
abbrev Bucket (α : Type) : Type := List (String × α)

/-- bolt `Get`: first value stored under the key, if any. -/
def bucketGet {α : Type} : Bucket α → String → Option α
  | [], _ => none
  | (k, v) :: rest, id => if k = id then some v else bucketGet rest id

/-- bolt `Put`: replace the value under the key in place, or append the pair. -/
def bucketPut {α : Type} : Bucket α → String → α → Bucket α
  | [], id, v => [(id, v)]
  | (k, w) :: rest, id, v =>
      if k = id then (k, v) :: rest else (k, w) :: bucketPut rest id v

/-- bolt `Delete`: remove every entry under the key (a no-op when absent). -/
def bucketDelete {α : Type} : Bucket α → String → Bucket α
  | [], _ => []
  | (k, w) :: rest, id =>
      if k = id then bucketDelete rest id else (k, w) :: bucketDelete rest id

/-- Go struct `Expense` (`backend/main.go`). -/
structure Expense where
  id : String
  amount : ℚ
  currency : String
  description : String
  category : String
  categoryColor : String
  merchant : String
  date : String
  user : String
  isShared : Bool
  hasAttachments : Bool
  commentCount : Int
  notes : String
  attachments : List String
  createdAt : String
  updatedAt : String
deriving DecidableEq

/-- Go struct `Budget` (`backend/main.go`): its only fields. -/
structure Budget where
  id : String
  category : String
  limit : ℚ
  spent : ℚ
  color : String
deriving DecidableEq

/-- Go struct `Goal` (`backend/main.go`). -/
structure Goal where
  id : String
  name : String
  target : ℚ
  current : ℚ
  deadline : String
  color : String
deriving DecidableEq

/-- Go struct `Investment` (`backend/main.go`). -/
structure Investment where
  id : String
  name : String
  type : String
  value : ℚ
  investedValue : ℚ
  returns : ℚ
  returnsPercent : ℚ
deriving DecidableEq

/-- Go struct `BillReminder` (`backend/main.go`). -/
structure BillReminder where
  id : String
  name : String
  amount : ℚ
  dueDate : String
  status : String
  category : String
deriving DecidableEq

/-- Go struct `Income` (`backend/main.go`). -/
structure Income where
  id : String
  amount : ℚ
  currency : String
  source : String
  description : String
  date : String
  isRecurring : Bool
  user : String
  createdAt : String
  updatedAt : String
deriving DecidableEq

/-- The Go zero value of `Expense`: what `var expense Expense` holds when
`json.Unmarshal` fails on invalid bytes. -/
def Expense.goZero : Expense :=
  { id := "", amount := 0, currency := "", description := "", category := ""
    categoryColor := "", merchant := "", date := "", user := ""
    isShared := false, hasAttachments := false, commentCount := 0
    notes := "", attachments := [], createdAt := "", updatedAt := "" }

/-- The Go zero value of `Budget`. -/
def Budget.goZero : Budget :=
  { id := "", category := "", limit := 0, spent := 0, color := "" }

/-- The Go zero value of `Goal`. -/
def Goal.goZero : Goal :=
  { id := "", name := "", target := 0, current := 0, deadline := "", color := "" }

/-- The Go zero value of `BillReminder`. -/
def BillReminder.goZero : BillReminder :=
  { id := "", name := "", amount := 0, dueDate := "", status := "", category := "" }

/-- The Go zero value of `Income`. -/
def Income.goZero : Income :=
  { id := "", amount := 0, currency := "", source := "", description := ""
    date := "", isRecurring := false, user := "", createdAt := "", updatedAt := "" }

/-- Outcome of a handler: `respondJSON` with a body, or `respondError`. -/
inductive ApiResult (α : Type) where
  | ok (status : Nat) (body : α)
  | err (status : Nat) (message : String)
deriving DecidableEq

/-- The HTTP status code a handler wrote. -/
def ApiResult.statusCode {α : Type} : ApiResult α → Nat
  | .ok s _ => s
  | .err s _ => s

/-- The record stored and returned by `createExpense` (`backend/main.go`
lines 255-284): generated ID when the payload has none, currency defaulted
to INR when empty, both timestamps set to `now`. -/
def createExpenseRecord (now nanoId : String) (p : Expense) : Expense :=
  let withId := if p.id = "" then { p with id := nanoId } else p
  let withCur := if withId.currency = "" then { withId with currency := "INR" } else withId
  { withCur with createdAt := now, updatedAt := now }

/-- Handler `createExpense`: responds 201 with the record and stores it. -/
def createExpense (now nanoId : String) (p : Expense) (b : Bucket Expense) :
    ApiResult Expense × Bucket Expense :=
  let e := createExpenseRecord now nanoId p
  (.ok 201 e, bucketPut b e.id e)

/-- The record stored and returned by `updateExpense` (`backend/main.go`
lines 286-319): ID forced to the path parameter, `updatedAt := now`,
currency defaulted to INR when empty, and `createdAt` copied from the
existing record when one is stored under the ID. -/
def updateExpenseRecord (now id : String) (p : Expense) (b : Bucket Expense) : Expense :=
  let e0 := { p with id := id, updatedAt := now }
  let e1 := if e0.currency = "" then { e0 with currency := "INR" } else e0
  match bucketGet b id with
  | some old => { e1 with createdAt := old.createdAt }
  | none => e1

/-- Handler `updateExpense`: responds 200 with the record and stores it
under the path ID (upsert: no existence check). -/
def updateExpense (now id : String) (p : Expense) (b : Bucket Expense) :
    ApiResult Expense × Bucket Expense :=
  let e := updateExpenseRecord now id p b
  (.ok 200 e, bucketPut b id e)

/-- Handler `getExpense` (`backend/main.go` lines 236-253). -/
def getExpense (id : String) (b : Bucket Expense) : ApiResult Expense :=
  match bucketGet b id with
  | some e => .ok 200 e
  | none => .err 404 "expense not found"

/-- Handler `deleteExpense` (`backend/main.go` lines 321-333): deletes
unconditionally and responds 200. -/
def deleteExpense (id : String) (b : Bucket Expense) :
    ApiResult String × Bucket Expense :=
  (.ok 200 "Expense deleted", bucketDelete b id)

/-- The record stored and returned by `createIncome` (`backend/main.go`
lines 753-778): generated ID when absent and both timestamps set to `now`;
unlike `createExpense`, the currency is NOT defaulted. -/
def createIncomeRecord (now nanoId : String) (p : Income) : Income :=
  let withId := if p.id = "" then { p with id := nanoId } else p
  { withId with createdAt := now, updatedAt := now }

/-- Handler `createIncome`: responds 201 with the record and stores it. -/
def createIncome (now nanoId : String) (p : Income) (b : Bucket Income) :
    ApiResult Income × Bucket Income :=
  let e := createIncomeRecord now nanoId p
  (.ok 201 e, bucketPut b e.id e)

/-- The record stored and returned by `updateIncome` (`backend/main.go`
lines 780-809): ID forced to the path parameter, `updatedAt := now`,
`createdAt` copied from the existing record when present; no currency
defaulting. -/
def updateIncomeRecord (now id : String) (p : Income) (b : Bucket Income) : Income :=
  let e0 := { p with id := id, updatedAt := now }
  match bucketGet b id with
  | some old => { e0 with createdAt := old.createdAt }
  | none => e0

/-- Handler `updateIncome`: responds 200 and stores under the path ID. -/
def updateIncome (now id : String) (p : Income) (b : Bucket Income) :
    ApiResult Income × Bucket Income :=
  let e := updateIncomeRecord now id p b
  (.ok 200 e, bucketPut b id e)

/-- Handler `deleteIncome`. -/
def deleteIncome (id : String) (b : Bucket Income) :
    ApiResult String × Bucket Income :=
  (.ok 200 "Income deleted", bucketDelete b id)

/-- The record stored and returned by `createBudget` (`backend/main.go`
lines 360-382): only the ID is defaulted; no timestamps, no currency. -/
def createBudgetRecord (nanoId : String) (p : Budget) : Budget :=
  if p.id = "" then { p with id := nanoId } else p

/-- Handler `createBudget`: responds 201 with the record and stores it. -/
def createBudget (nanoId : String) (p : Budget) (b : Bucket Budget) :
    ApiResult Budget × Bucket Budget :=
  let e := createBudgetRecord nanoId p
  (.ok 201 e, bucketPut b e.id e)

/-- Handler `updateBudget` (`backend/main.go` lines 384-406): forces the ID
to the path parameter and stores unconditionally (upsert). -/
def updateBudget (id : String) (p : Budget) (b : Bucket Budget) :
    ApiResult Budget × Bucket Budget :=
  let e := { p with id := id }
  (.ok 200 e, bucketPut b id e)

/-- Handler `deleteBudget`. -/
def deleteBudget (id : String) (b : Bucket Budget) :
    ApiResult String × Bucket Budget :=
  (.ok 200 "Budget deleted", bucketDelete b id)

/-- `createGoal` record: only the ID is defaulted. -/
def createGoalRecord (nanoId : String) (p : Goal) : Goal :=
  if p.id = "" then { p with id := nanoId } else p

/-- Handler `createGoal`. -/
def createGoal (nanoId : String) (p : Goal) (b : Bucket Goal) :
    ApiResult Goal × Bucket Goal :=
  let e := createGoalRecord nanoId p
  (.ok 201 e, bucketPut b e.id e)

/-- Handler `updateGoal`: forces the path ID and stores (upsert). -/
def updateGoal (id : String) (p : Goal) (b : Bucket Goal) :
    ApiResult Goal × Bucket Goal :=
  let e := { p with id := id }
  (.ok 200 e, bucketPut b id e)

/-- Handler `deleteGoal`. -/
def deleteGoal (id : String) (b : Bucket Goal) :
    ApiResult String × Bucket Goal :=
  (.ok 200 "Goal deleted", bucketDelete b id)

/-- `createInvestment` record: only the ID is defaulted. -/
def createInvestmentRecord (nanoId : String) (p : Investment) : Investment :=
  if p.id = "" then { p with id := nanoId } else p

/-- Handler `createInvestment`. -/
def createInvestment (nanoId : String) (p : Investment) (b : Bucket Investment) :
    ApiResult Investment × Bucket Investment :=
  let e := createInvestmentRecord nanoId p
  (.ok 201 e, bucketPut b e.id e)

/-- Handler `updateInvestment`: forces the path ID and stores (upsert). -/
def updateInvestment (id : String) (p : Investment) (b : Bucket Investment) :
    ApiResult Investment × Bucket Investment :=
  let e := { p with id := id }
  (.ok 200 e, bucketPut b id e)

/-- Handler `deleteInvestment`. -/
def deleteInvestment (id : String) (b : Bucket Investment) :
    ApiResult String × Bucket Investment :=
  (.ok 200 "Investment deleted", bucketDelete b id)

/-- `createBill` record: only the ID is defaulted. -/
def createBillRecord (nanoId : String) (p : BillReminder) : BillReminder :=
  if p.id = "" then { p with id := nanoId } else p

/-- Handler `createBill`. -/
def createBill (nanoId : String) (p : BillReminder) (b : Bucket BillReminder) :
    ApiResult BillReminder × Bucket BillReminder :=
  let e := createBillRecord nanoId p
  (.ok 201 e, bucketPut b e.id e)

/-- Handler `updateBill`: forces the path ID and stores (upsert). -/
def updateBill (id : String) (p : BillReminder) (b : Bucket BillReminder) :
    ApiResult BillReminder × Bucket BillReminder :=
  let e := { p with id := id }
  (.ok 200 e, bucketPut b id e)

/-- Handler `deleteBill`. -/
def deleteBill (id : String) (b : Bucket BillReminder) :
    ApiResult String × Bucket BillReminder :=
  (.ok 200 "Bill deleted", bucketDelete b id)

/-- A bucket as the store holds it: `none` marks stored bytes on which
`json.Unmarshal` fails. -/
abbrev RawBucket (α : Type) : Type := List (String × Option α)

/-- A well-formed bucket viewed as raw bytes: every record decodes. -/
def rawOfBucket {α : Type} (b : Bucket α) : RawBucket α :=
  b.map (fun kv => (kv.1, some kv.2))

/-- The `b.ForEach` decode loop of the list handlers (`getExpenses` and
friends): aborts with the unmarshal error at the first undecodable record,
otherwise yields all records in bucket order. -/
def scanDecode {α : Type} : RawBucket α → Except String (List α)
  | [] => .ok []
  | (_, none) :: _ => .error "unexpected end of JSON input"
  | (_, some v) :: rest => (scanDecode rest).map (fun l => v :: l)

/-- Handler `getExpenses` (`backend/main.go` lines 213-234): a decode error
inside the scan aborts the request with 500; otherwise 200 with the list
(an empty bucket yields `[]`, never null). -/
def getExpensesRaw (b : RawBucket Expense) : ApiResult (List Expense) :=
  match scanDecode b with
  | .error e => .err 500 e
  | .ok es => .ok 200 es

/-- How `getStats`/`getDashboardData` read one stored value: the
`json.Unmarshal` error is ignored, so an undecodable record is seen as the
Go zero value of the type. -/
def decodeOrZero {α : Type} (z : α) : Option α → α
  | some v => v
  | none => z

/-- The JSON object written by `getStats` (`backend/main.go` lines 685-726). -/
structure StatsPayload where
  totalSpent : ℚ
  monthlyBudget : ℚ
  transactionCount : Nat
  savingsRate : ℚ
deriving DecidableEq

/-- Handler `getStats` over raw buckets: the `db.View` error is discarded
and every `ForEach` callback returns nil, so the handler always responds
200; undecodable records contribute the zero value (amount/limit 0) and
still increment `transactionCount`. -/
def getStatsRaw (es : RawBucket Expense) (bs : RawBucket Budget) :
    ApiResult StatsPayload :=
  let totalSpent := (es.map (fun kv => (decodeOrZero Expense.goZero kv.2).amount)).sum
  let transactionCount := es.length
  let totalBudget := (bs.map (fun kv => (decodeOrZero Budget.goZero kv.2).limit)).sum
  .ok 200
    { totalSpent := totalSpent
      monthlyBudget := totalBudget
      transactionCount := transactionCount
      savingsRate :=
        if 0 < totalBudget then (totalBudget - totalSpent) / totalBudget * 100 else 0 }

/-- `getStats` on a store whose records all decode. -/
def getStats (es : Bucket Expense) (bs : Bucket Budget) : ApiResult StatsPayload :=
  getStatsRaw (rawOfBucket es) (rawOfBucket bs)

/-- One step of `categorySpending[expense.Category] += expense.Amount` on a
Go map modelled as an insertion-ordered association list: add to the entry
in place, or append a fresh entry (missing key reads as 0). -/
def addCat : List (String × ℚ) → String → ℚ → List (String × ℚ)
  | [], cat, amt => [(cat, amt)]
  | (c, a) :: rest, cat, amt =>
      if c = cat then (c, a + amt) :: rest else (c, a) :: addCat rest cat amt

/-- The `categorySpending` map after the dashboard expense scan, with
entries in first-seen order. -/
def categorySpending (es : List Expense) : List (String × ℚ) :=
  es.foldl (fun m e => addCat m e.category e.amount) []

/-- One step of `categoryColors[expense.Category] = expense.CategoryColor`:
set or overwrite (last writer wins). -/
def setColor : List (String × String) → String → String → List (String × String)
  | [], cat, col => [(cat, col)]
  | (c, x) :: rest, cat, col =>
      if c = cat then (c, col) :: rest else (c, x) :: setColor rest cat col

/-- The `categoryColors` map after the dashboard expense scan: only
expenses whose `CategoryColor` is nonempty contribute. -/
def categoryColors (es : List Expense) : List (String × String) :=
  es.foldl (fun m e => if e.categoryColor = "" then m else setColor m e.category e.categoryColor) []

/-- One element of the `categoryData` pie-chart list. -/
structure CategoryEntry where
  name : String
  value : ℚ
  color : String
deriving DecidableEq

/-- The fixed 8-color palette `defaultColors` of `getDashboardData`. -/
def defaultColors : List String :=
  ["#22c55e", "#ef4444", "#f59e0b", "#3b82f6", "#8b5cf6", "#ec4899", "#14b8a6", "#6366f1"]

/-- The `categoryData` build loop of `getDashboardData` (`backend/main.go`
lines 958-973), iterating the `categorySpending` entries in the order the
Go map range yields them: a category with a carried color keeps it, any
other gets `defaultColors[colorIdx % 8]` and advances `colorIdx`. -/
def buildCategoryData (colors : List (String × String)) :
    List (String × ℚ) → Nat → List CategoryEntry
  | [], _ => []
  | (cat, amt) :: rest, colorIdx =>
      let c := (bucketGet colors cat).getD ""
      if c = "" then
        { name := cat, value := amt
          color := defaultColors.getD (colorIdx % defaultColors.length) "" } ::
          buildCategoryData colors rest (colorIdx + 1)
      else
        { name := cat, value := amt, color := c } :: buildCategoryData colors rest colorIdx

/-- The JSON object written by `getDashboardData`. -/
structure DashboardPayload where
  totalSpent : ℚ
  totalIncome : ℚ
  monthlyBudget : ℚ
  transactionCount : Nat
  savingsRate : ℚ
  netBalance : ℚ
  expenses : List Expense
  recentTransactions : List Expense
  budgets : List Budget
  goals : List Goal
  bills : List BillReminder
  incomes : List Income
  categoryData : List CategoryEntry
deriving DecidableEq

/-- The five buckets `getDashboardData` scans, as the store holds them. -/
structure RawStore where
  expenses : RawBucket Expense
  budgets : RawBucket Budget
  goals : RawBucket Goal
  bills : RawBucket BillReminder
  incomes : RawBucket Income

/-- The decoded expense scan of the dashboard: unmarshal errors are
ignored, so every stored record appears, an undecodable one as the zero
value. -/
def decodedExpenses (s : RawStore) : List Expense :=
  s.expenses.map (fun kv => decodeOrZero Expense.goZero kv.2)

/-- Handler `getDashboardData` (`backend/main.go` lines 887-1004).  The
`catOrder` argument models the unspecified iteration order of the Go map
range over `categorySpending`; it is meaningful when it is a permutation of
`categorySpending` of the scanned expenses (`validCatOrder`).  As in
`getStats`, the `db.View` error is discarded and the scan callbacks never
fail, so the handler always responds 200. -/
def getDashboardData (catOrder : List (String × ℚ)) (s : RawStore) :
    ApiResult DashboardPayload :=
  let es := decodedExpenses s
  let bs := s.budgets.map (fun kv => decodeOrZero Budget.goZero kv.2)
  let gs := s.goals.map (fun kv => decodeOrZero Goal.goZero kv.2)
  let bills := s.bills.map (fun kv => decodeOrZero BillReminder.goZero kv.2)
  let incs := s.incomes.map (fun kv => decodeOrZero Income.goZero kv.2)
  let totalSpent := (es.map Expense.amount).sum
  let totalIncome := (incs.map Income.amount).sum
  let totalBudget := (bs.map Budget.limit).sum
  let categoryData := buildCategoryData (categoryColors es) catOrder 0
  let recent := if 5 < es.length then es.take 5 else es
  let savingsRate :=
    if 0 < totalIncome then (totalIncome - totalSpent) / totalIncome * 100 else 0
  .ok 200
    { totalSpent := totalSpent
      totalIncome := totalIncome
      monthlyBudget := totalBudget
      transactionCount := es.length
      savingsRate := savingsRate
      netBalance := totalIncome - totalSpent
      expenses := es
      recentTransactions := recent
      budgets := bs
      goals := gs
      bills := bills
      incomes := incs
      categoryData := categoryData }

/-- Validity of a map-range order: a permutation of the entries of the
`categorySpending` map built by the expense scan. -/
def validCatOrder (s : RawStore) (o : List (String × ℚ)) : Prop :=
  o.Perm (categorySpending (decodedExpenses s))

/-- Total amount the expense list spends in one category. -/
def categoryTotal (es : List Expense) (cat : String) : ℚ :=
  ((es.filter (fun e => e.category = cat)).map Expense.amount).sum

/-- The Go zero value of `Investment`. -/
def Investment.goZero : Investment :=
  { id := "", name := "", type := "", value := 0, investedValue := 0
    returns := 0, returnsPercent := 0 }

/-- Modelled from the spec: the data-model table row for Budget lists the
attributes name, category, month, limit, spent, color, isRecurring.  This
structure is a wire payload carrying all of them (plus an optional id);
the attributes absent from the backend `Budget` struct are exactly what is
at stake in the round-trip claim. -/
structure BudgetWire where
  id : String
  name : String
  category : String
  month : String
  limit : ℚ
  spent : ℚ
  color : String
  isRecurring : Bool
deriving DecidableEq

/-- Go JSON decoding of a budget payload into the `Budget` struct
(`backend/main.go` lines 36-42): only the struct fields survive; the
`name`, `month` and `isRecurring` keys have no counterpart and are
dropped. -/
def decodeBudgetWire (w : BudgetWire) : Budget :=
  { id := w.id, category := w.category, limit := w.limit, spent := w.spent
    color := w.color }

/-- A store holding one expense record whose bytes do not decode. -/
def c1store : RawStore :=
  { expenses := [("corrupt", none)], budgets := [], goals := [], bills := []
    incomes := [] }

/-- Fixture: groceries expense of 100. -/
def c3e1 : Expense := { Expense.goZero with id := "e1", amount := 100, category := "groceries" }

/-- Fixture: groceries expense of 50. -/
def c3e2 : Expense := { Expense.goZero with id := "e2", amount := 50, category := "groceries" }

/-- Fixture: dining expense of 25. -/
def c3e3 : Expense := { Expense.goZero with id := "e3", amount := 25, category := "dining" }

/-- Fixture store with the three spec-example expenses. -/
def c3store : RawStore :=
  { expenses := [("e1", some c3e1), ("e2", some c3e2), ("e3", some c3e3)]
    budgets := [], goals := [], bills := [], incomes := [] }

/-- The first-seen iteration order of the fixture category map. -/
def c3o1 : List (String × ℚ) := [("groceries", 150), ("dining", 25)]

/-- The reversed iteration order of the fixture category map. -/
def c3o2 : List (String × ℚ) := [("dining", 25), ("groceries", 150)]

/-- Fixture: a stored expense last written at 10:10:10. -/
def c4old : Expense :=
  { Expense.goZero with
    id := "e1"
    createdAt := "2024-05-01T00:00:00Z"
    updatedAt := "2024-05-05T10:10:10Z" }

/-- Fixture: a full budget wire payload named Food. -/
def c5w1 : BudgetWire :=
  { id := "b1", name := "Food", category := "groceries", month := "2024-05"
    limit := 1000, spent := 0, color := "#fff", isRecurring := true }

/-- Fixture: the same wire payload named Rent. -/
def c5w2 : BudgetWire := { c5w1 with name := "Rent" }

end FinApp

namespace FinApp

/-! ### Store lemmas -/

/-- Looking up a key right after putting it yields the stored value. -/
theorem bucketGet_put_self {α : Type} (b : Bucket α) (id : String) (v : α) :
    bucketGet (bucketPut b id v) id = some v := by
  induction b with
  | nil => simp [bucketPut, bucketGet]
  | cons kv rest ih =>
      obtain ⟨k, w⟩ := kv
      by_cases h : k = id
      · simp [bucketPut, bucketGet, h]
      · simp [bucketPut, bucketGet, h, ih]

/-- A deleted key is no longer found. -/
theorem bucketGet_delete_self {α : Type} (b : Bucket α) (id : String) :
    bucketGet (bucketDelete b id) id = none := by
  induction b with
  | nil => simp [bucketDelete, bucketGet]
  | cons kv rest ih =>
      obtain ⟨k, w⟩ := kv
      by_cases h : k = id
      · simp [bucketDelete, h, ih]
      · simp [bucketDelete, bucketGet, h, ih]

/-- Deleting twice is the same as deleting once. -/
theorem bucketDelete_idem {α : Type} (b : Bucket α) (id : String) :
    bucketDelete (bucketDelete b id) id = bucketDelete b id := by
  induction b with
  | nil => simp [bucketDelete]
  | cons kv rest ih =>
      obtain ⟨k, w⟩ := kv
      by_cases h : k = id
      · simp [bucketDelete, h, ih]
      · simp [bucketDelete, h, ih]

/-- A lookup that succeeds comes from an entry of the bucket. -/
theorem mem_of_bucketGet_eq {α : Type} (m : Bucket α) (k : String) (v : α)
    (h : bucketGet m k = some v) : (k, v) ∈ m := by
  induction m with
  | nil => simp [bucketGet] at h
  | cons kv rest ih =>
      obtain ⟨k0, v0⟩ := kv
      by_cases hk : k0 = k
      · subst hk
        simp [bucketGet] at h
        subst h
        exact List.mem_cons_self _ _
      · simp [bucketGet, hk] at h
        exact List.mem_cons_of_mem _ (ih h)

/-- In a bucket with no duplicate keys, an entry is found by lookup. -/
theorem bucketGet_eq_of_mem_nodup {α : Type} (m : Bucket α) (k : String) (v : α)
    (hm : (m.map Prod.fst).Nodup) (h : (k, v) ∈ m) : bucketGet m k = some v := by
  induction m with
  | nil => simp at h
  | cons kv rest ih =>
      obtain ⟨k0, v0⟩ := kv
      simp only [List.map_cons, List.nodup_cons] at hm
      rcases List.mem_cons.mp h with h0 | h0
      · rw [Prod.mk.injEq] at h0
        obtain ⟨hk, hv⟩ := h0
        subst hk
        subst hv
        simp [bucketGet]
      · have hk : ¬ k0 = k := by
          intro hEq
          apply hm.1
          subst hEq
          exact List.mem_map.mpr ⟨(k0, v), h0, rfl⟩
        simp [bucketGet, hk, ih hm.2 h0]

/-! ### Category-map lemmas -/

/-- Lookup at the key just added to the spending map: the old value (0 when
absent) plus the added amount. -/
theorem bucketGet_addCat_self (m : List (String × ℚ)) (c : String) (a : ℚ) :
    bucketGet (addCat m c a) c = some ((bucketGet m c).getD 0 + a) := by
  induction m with
  | nil => simp [addCat, bucketGet]
  | cons kv rest ih =>
      obtain ⟨k, x⟩ := kv
      by_cases h : k = c
      · simp [addCat, bucketGet, h]
      · simp [addCat, bucketGet, h, ih]

/-- Lookup at any other key is unchanged by `addCat`. -/
theorem bucketGet_addCat_ne (m : List (String × ℚ)) (c : String) (a : ℚ)
    (c' : String) (h : c' ≠ c) :
    bucketGet (addCat m c a) c' = bucketGet m c' := by
  induction m with
  | nil =>
      have hc : ¬ c = c' := fun hh => h hh.symm
      simp [addCat, bucketGet, hc]
  | cons kv rest ih =>
      obtain ⟨k, x⟩ := kv
      by_cases hk : k = c
      · subst hk
        have hkc : ¬ k = c' := fun hh => h hh.symm
        simp [addCat, bucketGet, hkc]
      · simp [addCat, bucketGet, hk, ih]

/-- The keys after `addCat`: unchanged when the key is present, appended
otherwise. -/
theorem keys_addCat (m : List (String × ℚ)) (c : String) (a : ℚ) :
    (addCat m c a).map Prod.fst =
      if c ∈ m.map Prod.fst then m.map Prod.fst else m.map Prod.fst ++ [c] := by
  induction m with
  | nil => simp [addCat]
  | cons kv rest ih =>
      obtain ⟨k, x⟩ := kv
      by_cases h : k = c
      · simp [addCat, h]
      · have hck : ¬ c = k := fun hh => h hh.symm
        simp only [addCat, if_neg h, List.map_cons, ih, List.mem_cons]
        by_cases hc : c ∈ rest.map Prod.fst
        · simp [hc]
        · simp [hc, hck]

/-- `addCat` keeps the keys duplicate-free. -/
theorem nodup_keys_addCat (m : List (String × ℚ)) (c : String) (a : ℚ)
    (hm : (m.map Prod.fst).Nodup) : ((addCat m c a).map Prod.fst).Nodup := by
  rw [keys_addCat]
  by_cases h : c ∈ m.map Prod.fst
  · simpa [h] using hm
  · simp only [if_neg h]
    exact List.Nodup.append hm (List.nodup_singleton c) (by simpa using h)

/-- `categoryTotal` over the empty scan. -/
theorem categoryTotal_nil (cat : String) : categoryTotal [] cat = 0 := rfl

/-- `categoryTotal` step when the head expense is in the category. -/
theorem categoryTotal_cons_self (e : Expense) (rest : List Expense) (cat : String)
    (h : e.category = cat) :
    categoryTotal (e :: rest) cat = e.amount + categoryTotal rest cat := by
  simp [categoryTotal, List.filter_cons, h]

/-- `categoryTotal` step when the head expense is in another category. -/
theorem categoryTotal_cons_ne (e : Expense) (rest : List Expense) (cat : String)
    (h : ¬ e.category = cat) :
    categoryTotal (e :: rest) cat = categoryTotal rest cat := by
  simp [categoryTotal, List.filter_cons, h]

/-- Lookup in the spending map built by folding the expense scan over an
arbitrary initial map. -/
theorem bucketGet_spendFoldl (es : List Expense) (m : List (String × ℚ)) (cat : String) :
    bucketGet (es.foldl (fun m e => addCat m e.category e.amount) m) cat =
      if cat ∈ es.map Expense.category ∨ (bucketGet m cat).isSome
      then some ((bucketGet m cat).getD 0 + categoryTotal es cat)
      else none := by
  induction es generalizing m with
  | nil =>
      cases h : bucketGet m cat <;> simp [categoryTotal, h]
  | cons e rest ih =>
      rw [List.foldl_cons, ih]
      by_cases he : e.category = cat
      · subst he
        rw [bucketGet_addCat_self, categoryTotal_cons_self e rest e.category rfl]
        simp [add_assoc]
      · have hcc : cat ≠ e.category := fun hh => he hh.symm
        rw [bucketGet_addCat_ne m e.category e.amount cat hcc,
          categoryTotal_cons_ne e rest cat he]
        simp [hcc]

/-- Lookup in the `categorySpending` map of the dashboard scan. -/
theorem bucketGet_categorySpending (es : List Expense) (cat : String) :
    bucketGet (categorySpending es) cat =
      if cat ∈ es.map Expense.category then some (categoryTotal es cat) else none := by
  have h := bucketGet_spendFoldl es [] cat
  simpa [categorySpending, bucketGet] using h

/-- The fold of the expense scan keeps the keys duplicate-free. -/
theorem nodup_keys_spendFoldl (es : List Expense) (m : List (String × ℚ))
    (hm : (m.map Prod.fst).Nodup) :
    ((es.foldl (fun m e => addCat m e.category e.amount) m).map Prod.fst).Nodup := by
  induction es generalizing m with
  | nil => exact hm
  | cons e rest ih =>
      rw [List.foldl_cons]
      exact ih _ (nodup_keys_addCat m e.category e.amount hm)

/-- The `categorySpending` map has one entry per category. -/
theorem nodup_keys_categorySpending (es : List Expense) :
    ((categorySpending es).map Prod.fst).Nodup :=
  nodup_keys_spendFoldl es [] (by simp)

/-- Membership in `categorySpending`: exactly the seen categories, each
with the sum of its amounts. -/
theorem mem_categorySpending_iff (es : List Expense) (cat : String) (q : ℚ) :
    (cat, q) ∈ categorySpending es ↔
      (cat ∈ es.map Expense.category ∧ q = categoryTotal es cat) := by
  constructor
  · intro h
    have hl := bucketGet_eq_of_mem_nodup _ _ _ (nodup_keys_categorySpending es) h
    rw [bucketGet_categorySpending] at hl
    by_cases hmem : cat ∈ es.map Expense.category
    · rw [if_pos hmem] at hl
      exact ⟨hmem, (Option.some.inj hl).symm⟩
    · rw [if_neg hmem] at hl
      exact absurd hl (by simp)
  · rintro ⟨hmem, rfl⟩
    apply mem_of_bucketGet_eq
    rw [bucketGet_categorySpending, if_pos hmem]

/-- The name/value projection of the `categoryData` build loop returns the
iterated entries unchanged: color assignment touches neither field. -/
theorem buildCategoryData_map_nameValue (colors : List (String × String))
    (l : List (String × ℚ)) (i : Nat) :
    (buildCategoryData colors l i).map (fun c => (c.name, c.value)) = l := by
  induction l generalizing i with
  | nil => simp [buildCategoryData]
  | cons kv rest ih =>
      obtain ⟨cat, amt⟩ := kv
      by_cases h : (bucketGet colors cat).getD "" = ""
      · simp [buildCategoryData, h, ih]
      · simp [buildCategoryData, h, ih]

/-- The names of the built `categoryData` are the iterated keys. -/
theorem buildCategoryData_map_name (colors : List (String × String))
    (l : List (String × ℚ)) (i : Nat) :
    (buildCategoryData colors l i).map CategoryEntry.name = l.map Prod.fst := by
  induction l generalizing i with
  | nil => simp [buildCategoryData]
  | cons kv rest ih =>
      obtain ⟨cat, amt⟩ := kv
      by_cases h : (bucketGet colors cat).getD "" = ""
      · simp [buildCategoryData, h, ih]
      · simp [buildCategoryData, h, ih]

/-- A scan over a bucket holding an undecodable record aborts with the
unmarshal error. -/
theorem scanDecode_append_corrupt {α : Type} (pre : RawBucket α) (k : String)
    (rest : RawBucket α) :
    scanDecode (pre ++ (k, none) :: rest) =
      Except.error "unexpected end of JSON input" := by
  induction pre with
  | nil => rfl
  | cons kv tail ih =>
      obtain ⟨k0, v0⟩ := kv
      cases v0 with
      | none => rfl
      | some v => simp [scanDecode, ih, Except.map]

/-! ### Claim theorems -/

/-- Claim C8: for every id, delete then get fails with 404 NotFound, and a
second delete of the same id returns the same 200 success result and
leaves the bucket unchanged (idempotent delete, shown for the expense
bucket and a second entity kind). -/
theorem C8_delete_idempotent_get_404 (b : Bucket Expense) (bb : Bucket Budget)
    (id : String) :
    getExpense id (deleteExpense id b).2 = .err 404 "expense not found" ∧
    (deleteExpense id b).1 = .ok 200 "Expense deleted" ∧
    deleteExpense id (deleteExpense id b).2 = deleteExpense id b ∧
    deleteBudget id (deleteBudget id bb).2 = deleteBudget id bb := by
  refine ⟨?_, rfl, ?_, ?_⟩
  · simp [getExpense, deleteExpense, bucketGet_delete_self]
  · simp [deleteExpense, bucketDelete_idem]
  · simp [deleteBudget, bucketDelete_idem]

/-- Claim C7: for every entity kind and every id with no stored record,
update does not fail with NotFound: it responds 200 and stores a record
under the id, so a subsequent get or list observes a record with that id
(upsert semantics). -/
theorem C7_update_missing_id_upserts
    (now id : String)
    (be : Bucket Expense) (bb : Bucket Budget) (bg : Bucket Goal)
    (bv : Bucket Investment) (bl : Bucket BillReminder) (bn : Bucket Income)
    (pe : Expense) (pb : Budget) (pg : Goal)
    (pv : Investment) (pl : BillReminder) (pn : Income)
    (he : bucketGet be id = none) (hb : bucketGet bb id = none)
    (hg : bucketGet bg id = none) (hv : bucketGet bv id = none)
    (hl : bucketGet bl id = none) (hn : bucketGet bn id = none) :
    ((updateExpense now id pe be).1.statusCode = 200 ∧
      bucketGet (updateExpense now id pe be).2 id = some (updateExpenseRecord now id pe be) ∧
      (updateExpenseRecord now id pe be).id = id) ∧
    ((updateBudget id pb bb).1.statusCode = 200 ∧
      bucketGet (updateBudget id pb bb).2 id = some { pb with id := id }) ∧
    ((updateGoal id pg bg).1.statusCode = 200 ∧
      bucketGet (updateGoal id pg bg).2 id = some { pg with id := id }) ∧
    ((updateInvestment id pv bv).1.statusCode = 200 ∧
      bucketGet (updateInvestment id pv bv).2 id = some { pv with id := id }) ∧
    ((updateBill id pl bl).1.statusCode = 200 ∧
      bucketGet (updateBill id pl bl).2 id = some { pl with id := id }) ∧
    ((updateIncome now id pn bn).1.statusCode = 200 ∧
      bucketGet (updateIncome now id pn bn).2 id = some (updateIncomeRecord now id pn bn) ∧
      (updateIncomeRecord now id pn bn).id = id) := by
  refine ⟨⟨rfl, bucketGet_put_self _ _ _, ?_⟩, ⟨rfl, bucketGet_put_self _ _ _⟩,
    ⟨rfl, bucketGet_put_self _ _ _⟩, ⟨rfl, bucketGet_put_self _ _ _⟩,
    ⟨rfl, bucketGet_put_self _ _ _⟩, ⟨rfl, bucketGet_put_self _ _ _, ?_⟩⟩
  · by_cases hc : pe.currency = "" <;> simp [updateExpenseRecord, he, hc]
  · simp [updateIncomeRecord, hn]

/-- Witness for C7 at concrete inputs: empty buckets and zero payloads. -/
theorem C7_update_missing_id_upserts_witness :
    (bucketGet ([] : Bucket Expense) "w7" = none ∧
      bucketGet ([] : Bucket Budget) "w7" = none ∧
      bucketGet ([] : Bucket Goal) "w7" = none ∧
      bucketGet ([] : Bucket Investment) "w7" = none ∧
      bucketGet ([] : Bucket BillReminder) "w7" = none ∧
      bucketGet ([] : Bucket Income) "w7" = none) ∧
    (updateExpense "2024-01-01T00:00:00Z" "w7" Expense.goZero []).1.statusCode = 200 ∧
    bucketGet (updateExpense "2024-01-01T00:00:00Z" "w7" Expense.goZero []).2 "w7"
      = some (updateExpenseRecord "2024-01-01T00:00:00Z" "w7" Expense.goZero []) ∧
    (updateBudget "w7" Budget.goZero []).1.statusCode = 200 ∧
    bucketGet (updateBudget "w7" Budget.goZero []).2 "w7"
      = some { Budget.goZero with id := "w7" } := by
  have h := C7_update_missing_id_upserts "2024-01-01T00:00:00Z" "w7"
    [] [] [] [] [] [] Expense.goZero Budget.goZero Goal.goZero
    Investment.goZero BillReminder.goZero Income.goZero
    rfl rfl rfl rfl rfl rfl
  exact ⟨⟨rfl, rfl, rfl, rfl, rfl, rfl⟩, h.1.1, h.1.2.1, h.2.1.1, h.2.1.2⟩

/-- Claim C9: a create whose payload carries a non-empty id equal to an
already stored id responds 201 and silently overwrites the stored record;
no uniqueness check, no conflict error. -/
theorem C9_create_existing_id_overwrites
    (now gid : String) (pe : Expense) (pb : Budget)
    (be : Bucket Expense) (bb : Bucket Budget) (olde : Expense) (oldb : Budget)
    (hide : pe.id ≠ "") (hidb : pb.id ≠ "")
    (he : bucketGet be pe.id = some olde) (hb : bucketGet bb pb.id = some oldb) :
    (createExpense now gid pe be).1 = .ok 201 (createExpenseRecord now gid pe) ∧
    (createExpenseRecord now gid pe).id = pe.id ∧
    bucketGet (createExpense now gid pe be).2 pe.id = some (createExpenseRecord now gid pe) ∧
    (createBudget gid pb bb).1 = .ok 201 pb ∧
    bucketGet (createBudget gid pb bb).2 pb.id = some pb := by
  have hid : (createExpenseRecord now gid pe).id = pe.id := by
    by_cases hc : pe.currency = "" <;> simp [createExpenseRecord, hide, hc]
  refine ⟨rfl, hid, ?_, ?_, ?_⟩
  · show bucketGet (bucketPut be (createExpenseRecord now gid pe).id
      (createExpenseRecord now gid pe)) pe.id = some (createExpenseRecord now gid pe)
    rw [hid]
    exact bucketGet_put_self _ _ _
  · simp [createBudget, createBudgetRecord, hidb]
  · show bucketGet (bucketPut bb (createBudgetRecord gid pb).id
      (createBudgetRecord gid pb)) pb.id = some pb
    simp [createBudgetRecord, hidb, bucketGet_put_self]

/-- Witness for C9 at concrete inputs: both buckets already hold a record
under the supplied id. -/
theorem C9_create_existing_id_overwrites_witness :
    ("dup" : String) ≠ "" ∧
    bucketGet [("dup", Expense.goZero)] "dup" = some Expense.goZero ∧
    bucketGet [("dup", Budget.goZero)] "dup" = some Budget.goZero ∧
    (createExpense "2024-01-01T00:00:00Z" "g9" { Expense.goZero with id := "dup" }
        [("dup", Expense.goZero)]).1
      = .ok 201 (createExpenseRecord "2024-01-01T00:00:00Z" "g9"
          { Expense.goZero with id := "dup" }) ∧
    bucketGet (createBudget "g9" { Budget.goZero with id := "dup" }
        [("dup", Budget.goZero)]).2 "dup"
      = some { Budget.goZero with id := "dup" } := by
  have h := C9_create_existing_id_overwrites "2024-01-01T00:00:00Z" "g9"
    { Expense.goZero with id := "dup" } { Budget.goZero with id := "dup" }
    [("dup", Expense.goZero)] [("dup", Budget.goZero)]
    Expense.goZero Budget.goZero (by decide) (by decide) (by decide) (by decide)
  refine ⟨by decide, by decide, by decide, h.1, ?_⟩
  have h5 := h.2.2.2.2
  simpa using h5

/-- Claim C10: on the upsert path (no record stored under the id) the
stored createdAt is exactly the payload createdAt, not the current time;
preservation applies only when a pre-existing record is found. -/
theorem C10_upsert_keeps_payload_createdAt
    (now id : String) (pe : Expense) (pn : Income)
    (be : Bucket Expense) (bn : Bucket Income)
    (he : bucketGet be id = none) (hn : bucketGet bn id = none) :
    (updateExpenseRecord now id pe be).createdAt = pe.createdAt ∧
    (updateIncomeRecord now id pn bn).createdAt = pn.createdAt ∧
    bucketGet (updateExpense now id pe be).2 id = some (updateExpenseRecord now id pe be) ∧
    bucketGet (updateIncome now id pn bn).2 id = some (updateIncomeRecord now id pn bn) := by
  refine ⟨?_, ?_, bucketGet_put_self _ _ _, bucketGet_put_self _ _ _⟩
  · by_cases hc : pe.currency = "" <;> simp [updateExpenseRecord, he, hc]
  · simp [updateIncomeRecord, hn]

/-- Witness for C10 at concrete inputs: an absent-createdAt (empty string)
payload stored via update of a missing id keeps the empty createdAt even
though the clock reads a real time. -/
theorem C10_upsert_keeps_payload_createdAt_witness :
    bucketGet ([] : Bucket Expense) "w10" = none ∧
    bucketGet ([] : Bucket Income) "w10" = none ∧
    (updateExpenseRecord "2024-02-02T00:00:00Z" "w10" Expense.goZero []).createdAt
      = Expense.goZero.createdAt ∧
    (updateIncomeRecord "2024-02-02T00:00:00Z" "w10" Income.goZero []).createdAt
      = Income.goZero.createdAt ∧
    (updateExpenseRecord "2024-02-02T00:00:00Z" "w10" Expense.goZero []).createdAt
      ≠ "2024-02-02T00:00:00Z" := by
  have h := C10_upsert_keeps_payload_createdAt "2024-02-02T00:00:00Z" "w10"
    Expense.goZero Income.goZero [] [] rfl rfl
  exact ⟨rfl, rfl, h.1, h.2.1, by decide⟩

/-- Counterexample to claim C2: an income created with an empty currency is
stored and returned with the empty currency, not "INR" — `createIncome`
has no currency defaulting. -/
theorem C2_counterexample :
    Income.goZero.currency = "" ∧
    (createIncome "2024-01-01T00:00:00Z" "1700000000000000000" Income.goZero []).1
      = .ok 201 (createIncomeRecord "2024-01-01T00:00:00Z" "1700000000000000000" Income.goZero) ∧
    (createIncomeRecord "2024-01-01T00:00:00Z" "1700000000000000000" Income.goZero).currency
      ≠ "INR" ∧
    (createIncomeRecord "2024-01-01T00:00:00Z" "1700000000000000000" Income.goZero).currency
      = "" :=
  ⟨rfl, rfl, by decide, by decide⟩

/-- Claim C2 as amended: an expense created with an empty currency gets
"INR", while an income keeps whatever currency the payload carried (the
empty string stays empty); both creates set createdAt and updatedAt to the
current time. -/
theorem C2_amended_create_defaults (now gid : String) (pe : Expense) (pn : Income)
    (hc : pe.currency = "") :
    (createExpenseRecord now gid pe).currency = "INR" ∧
    (createExpenseRecord now gid pe).createdAt = now ∧
    (createExpenseRecord now gid pe).updatedAt = now ∧
    (createIncomeRecord now gid pn).currency = pn.currency ∧
    (createIncomeRecord now gid pn).createdAt = now ∧
    (createIncomeRecord now gid pn).updatedAt = now := by
  by_cases hi : pe.id = "" <;> by_cases hni : pn.id = "" <;>
    simp [createExpenseRecord, createIncomeRecord, hi, hni, hc]

/-- Witness for the amended C2 at concrete inputs. -/
theorem C2_amended_create_defaults_witness :
    Expense.goZero.currency = "" ∧
    (createExpenseRecord "2024-01-01T00:00:00Z" "1700000000000000000" Expense.goZero).currency
      = "INR" ∧
    (createIncomeRecord "2024-01-01T00:00:00Z" "1700000000000000000" Income.goZero).currency
      = Income.goZero.currency := by
  have h := C2_amended_create_defaults "2024-01-01T00:00:00Z" "1700000000000000000"
    Expense.goZero Income.goZero rfl
  exact ⟨rfl, h.1, h.2.2.2.1⟩

/-- Counterexample to claim C4: an update performed in the same
RFC3339-formatted second as the previous write stores an updatedAt equal
to, not strictly greater than, the pre-update value. -/
theorem C4_counterexample :
    bucketGet [("e1", c4old)] "e1" = some c4old ∧
    (updateExpenseRecord "2024-05-05T10:10:10Z" "e1" Expense.goZero [("e1", c4old)]).createdAt
      = c4old.createdAt ∧
    (updateExpenseRecord "2024-05-05T10:10:10Z" "e1" Expense.goZero [("e1", c4old)]).updatedAt
      = c4old.updatedAt ∧
    ¬ c4old.updatedAt <
      (updateExpenseRecord "2024-05-05T10:10:10Z" "e1" Expense.goZero [("e1", c4old)]).updatedAt := by
  refine ⟨by decide, by decide, by decide, ?_⟩
  rw [String.lt_iff_toList_lt]
  decide

/-- Claim C4 as amended: update of an existing expense or income preserves
the pre-update createdAt, forces the path id, stores updatedAt equal to
the formatted time of the update call (ignoring the payload id/createdAt), and
updatedAt exceeds the pre-update value exactly when the formatted clock
advanced past it. -/
theorem C4_amended_update_timestamps
    (now id : String) (pe : Expense) (pn : Income) (olde : Expense) (oldn : Income)
    (be : Bucket Expense) (bn : Bucket Income)
    (he : bucketGet be id = some olde) (hn : bucketGet bn id = some oldn) :
    ((updateExpenseRecord now id pe be).createdAt = olde.createdAt ∧
      (updateExpenseRecord now id pe be).id = id ∧
      (updateExpenseRecord now id pe be).updatedAt = now ∧
      bucketGet (updateExpense now id pe be).2 id = some (updateExpenseRecord now id pe be) ∧
      (olde.updatedAt < now →
        olde.updatedAt < (updateExpenseRecord now id pe be).updatedAt)) ∧
    ((updateIncomeRecord now id pn bn).createdAt = oldn.createdAt ∧
      (updateIncomeRecord now id pn bn).id = id ∧
      (updateIncomeRecord now id pn bn).updatedAt = now ∧
      bucketGet (updateIncome now id pn bn).2 id = some (updateIncomeRecord now id pn bn) ∧
      (oldn.updatedAt < now →
        oldn.updatedAt < (updateIncomeRecord now id pn bn).updatedAt)) := by
  have h1 : (updateExpenseRecord now id pe be).createdAt = olde.createdAt := by
    by_cases hcur : pe.currency = "" <;> simp [updateExpenseRecord, he, hcur]
  have h2 : (updateExpenseRecord now id pe be).id = id := by
    by_cases hcur : pe.currency = "" <;> simp [updateExpenseRecord, he, hcur]
  have h3 : (updateExpenseRecord now id pe be).updatedAt = now := by
    by_cases hcur : pe.currency = "" <;> simp [updateExpenseRecord, he, hcur]
  have g1 : (updateIncomeRecord now id pn bn).createdAt = oldn.createdAt := by
    simp [updateIncomeRecord, hn]
  have g2 : (updateIncomeRecord now id pn bn).id = id := by
    simp [updateIncomeRecord, hn]
  have g3 : (updateIncomeRecord now id pn bn).updatedAt = now := by
    simp [updateIncomeRecord, hn]
  refine ⟨⟨h1, h2, h3, bucketGet_put_self _ _ _, fun hlt => ?_⟩,
    ⟨g1, g2, g3, bucketGet_put_self _ _ _, fun hlt => ?_⟩⟩
  · rw [h3]; exact hlt
  · rw [g3]; exact hlt

/-- Witness for the amended C4 at concrete inputs: the clock advanced one
second, so updatedAt strictly increases. -/
theorem C4_amended_update_timestamps_witness :
    bucketGet [("e1", c4old)] "e1" = some c4old ∧
    bucketGet [("e1", Income.goZero)] "e1" = some Income.goZero ∧
    (updateExpenseRecord "2024-05-05T10:10:11Z" "e1" Expense.goZero [("e1", c4old)]).createdAt
      = c4old.createdAt ∧
    c4old.updatedAt < "2024-05-05T10:10:11Z" ∧
    c4old.updatedAt <
      (updateExpenseRecord "2024-05-05T10:10:11Z" "e1" Expense.goZero [("e1", c4old)]).updatedAt := by
  have h := C4_amended_update_timestamps "2024-05-05T10:10:11Z" "e1"
    Expense.goZero Income.goZero c4old Income.goZero
    [("e1", c4old)] [("e1", Income.goZero)] (by decide) (by decide)
  have hlt : c4old.updatedAt < "2024-05-05T10:10:11Z" := by
    rw [String.lt_iff_toList_lt]
    decide
  exact ⟨by decide, by decide, h.1.1, hlt, h.1.2.2.2.2 hlt⟩

/-- Claim C6: the stats endpoint returns totalSpent = S, monthlyBudget =
B, transactionCount = the number of expense records, and savingsRate =
(B - S) / B * 100 when B is positive, else 0; at B = 1000 and S = 300 the
savings rate is 70. -/
theorem C6_stats_formula (es : Bucket Expense) (bs : Bucket Budget) (B S : ℚ)
    (hB : ((bs.map Prod.snd).map Budget.limit).sum = B)
    (hS : ((es.map Prod.snd).map Expense.amount).sum = S) :
    getStats es bs = .ok 200
      { totalSpent := S
        monthlyBudget := B
        transactionCount := es.length
        savingsRate := if 0 < B then (B - S) / B * 100 else 0 } ∧
    (B = 1000 → S = 300 → (if 0 < B then (B - S) / B * 100 else 0) = 70) := by
  constructor
  · have hmapE : (rawOfBucket es).map (fun kv => (decodeOrZero Expense.goZero kv.2).amount)
        = (es.map Prod.snd).map Expense.amount := by
      simp [rawOfBucket, List.map_map, Function.comp, decodeOrZero]
    have hmapB : (rawOfBucket bs).map (fun kv => (decodeOrZero Budget.goZero kv.2).limit)
        = (bs.map Prod.snd).map Budget.limit := by
      simp [rawOfBucket, List.map_map, Function.comp, decodeOrZero]
    have hlen : (rawOfBucket es).length = es.length := by simp [rawOfBucket]
    simp only [getStats, getStatsRaw]
    rw [hmapE, hmapB, hlen, hB, hS]
  · rintro rfl rfl
    norm_num

/-- Witness for C6 at concrete inputs: budgets 600 + 400, one expense of
300, savings rate 70. -/
theorem C6_stats_formula_witness :
    ((([("b1", { Budget.goZero with limit := 600 }),
        ("b2", { Budget.goZero with limit := 400 })] : Bucket Budget).map
          Prod.snd).map Budget.limit).sum = (1000 : ℚ) ∧
    ((([("e1", { Expense.goZero with amount := 300 })] : Bucket Expense).map
          Prod.snd).map Expense.amount).sum = (300 : ℚ) ∧
    getStats [("e1", { Expense.goZero with amount := 300 })]
        [("b1", { Budget.goZero with limit := 600 }),
         ("b2", { Budget.goZero with limit := 400 })]
      = .ok 200
          { totalSpent := 300
            monthlyBudget := 1000
            transactionCount := 1
            savingsRate := if (0 : ℚ) < 1000 then ((1000 : ℚ) - 300) / 1000 * 100 else 0 } ∧
    (if (0 : ℚ) < 1000 then ((1000 : ℚ) - 300) / 1000 * 100 else 0) = 70 := by
  have hb : ((([("b1", { Budget.goZero with limit := 600 }),
      ("b2", { Budget.goZero with limit := 400 })] : Bucket Budget).map
        Prod.snd).map Budget.limit).sum = (1000 : ℚ) := by norm_num
  have he : ((([("e1", { Expense.goZero with amount := 300 })] : Bucket Expense).map
        Prod.snd).map Expense.amount).sum = (300 : ℚ) := by norm_num
  have h := C6_stats_formula [("e1", { Expense.goZero with amount := 300 })]
    [("b1", { Budget.goZero with limit := 600 }),
     ("b2", { Budget.goZero with limit := 400 })] 1000 300 hb he
  exact ⟨hb, he, h.1, h.2 rfl rfl⟩

/-- Counterexample to claim C5: two budget payloads differing only in the
data-model attribute name decode to the same stored record, and create
stores the same bucket for both — so no read-back can recover name (nor
month or isRecurring): the backend Budget struct has no such fields. -/
theorem C5_counterexample :
    decodeBudgetWire c5w1 = decodeBudgetWire c5w2 ∧
    c5w1.name ≠ c5w2.name ∧
    createBudget "g5" (decodeBudgetWire c5w1) []
      = createBudget "g5" (decodeBudgetWire c5w2) [] ∧
    ¬ ∃ f : Budget → String, ∀ w : BudgetWire, f (decodeBudgetWire w) = w.name := by
  refine ⟨rfl, by decide, rfl, ?_⟩
  rintro ⟨f, hf⟩
  have h1 := hf c5w1
  have h2 := hf c5w2
  rw [show decodeBudgetWire c5w2 = decodeBudgetWire c5w1 from rfl, h1] at h2
  exact absurd h2 (by decide)

/-- Claim C5 as amended: create then get returns a record equal to the
payload except for the server-assigned id, timestamps and the defaulted
currency — for the fields the backend record types actually carry.  For
Budget those fields are category, limit, spent and color; the spec-table
attributes name, month and isRecurring are not stored at all (see the
counterexample). -/
theorem C5_amended_roundtrip_struct_fields
    (now gid : String) (pe : Expense) (pb : Budget) (pg : Goal)
    (pv : Investment) (pl : BillReminder) (pn : Income)
    (be : Bucket Expense) (bb : Bucket Budget) (bg : Bucket Goal)
    (bv : Bucket Investment) (bl : Bucket BillReminder) (bn : Bucket Income) :
    (bucketGet (createExpense now gid pe be).2 (createExpenseRecord now gid pe).id
        = some (createExpenseRecord now gid pe) ∧
      createExpenseRecord now gid pe =
        { pe with
            id := if pe.id = "" then gid else pe.id
            currency := if pe.currency = "" then "INR" else pe.currency
            createdAt := now
            updatedAt := now }) ∧
    (bucketGet (createBudget gid pb bb).2 (createBudgetRecord gid pb).id
        = some (createBudgetRecord gid pb) ∧
      createBudgetRecord gid pb = { pb with id := if pb.id = "" then gid else pb.id }) ∧
    (bucketGet (createGoal gid pg bg).2 (createGoalRecord gid pg).id
        = some (createGoalRecord gid pg) ∧
      createGoalRecord gid pg = { pg with id := if pg.id = "" then gid else pg.id }) ∧
    (bucketGet (createInvestment gid pv bv).2 (createInvestmentRecord gid pv).id
        = some (createInvestmentRecord gid pv) ∧
      createInvestmentRecord gid pv = { pv with id := if pv.id = "" then gid else pv.id }) ∧
    (bucketGet (createBill gid pl bl).2 (createBillRecord gid pl).id
        = some (createBillRecord gid pl) ∧
      createBillRecord gid pl = { pl with id := if pl.id = "" then gid else pl.id }) ∧
    (bucketGet (createIncome now gid pn bn).2 (createIncomeRecord now gid pn).id
        = some (createIncomeRecord now gid pn) ∧
      createIncomeRecord now gid pn =
        { pn with
            id := if pn.id = "" then gid else pn.id
            createdAt := now
            updatedAt := now }) := by
  refine ⟨⟨bucketGet_put_self _ _ _, ?_⟩, ⟨bucketGet_put_self _ _ _, ?_⟩,
    ⟨bucketGet_put_self _ _ _, ?_⟩, ⟨bucketGet_put_self _ _ _, ?_⟩,
    ⟨bucketGet_put_self _ _ _, ?_⟩, ⟨bucketGet_put_self _ _ _, ?_⟩⟩
  · by_cases hi : pe.id = "" <;> by_cases hc : pe.currency = "" <;>
      simp [createExpenseRecord, hi, hc]
  · by_cases hi : pb.id = "" <;> simp [createBudgetRecord, hi]
  · by_cases hi : pg.id = "" <;> simp [createGoalRecord, hi]
  · by_cases hi : pv.id = "" <;> simp [createInvestmentRecord, hi]
  · by_cases hi : pl.id = "" <;> simp [createBillRecord, hi]
  · by_cases hi : pn.id = "" <;> simp [createIncomeRecord, hi]

/-- Counterexample to claim C1: a store whose expense scan fails — the
list endpoint on the very same bucket answers 500 — still gets a 200
response with an aggregation payload from stats and dashboard: their
handlers discard the scan and decode errors, and the undecodable record is
even counted in transactionCount. -/
theorem C1_counterexample :
    (getExpensesRaw c1store.expenses).statusCode = 500 ∧
    (getStatsRaw c1store.expenses c1store.budgets).statusCode = 200 ∧
    getStatsRaw c1store.expenses c1store.budgets = .ok 200
      { totalSpent := 0, monthlyBudget := 0, transactionCount := 1, savingsRate := 0 } ∧
    validCatOrder c1store [("", 0)] ∧
    (getDashboardData [("", 0)] c1store).statusCode = 200 := by
  refine ⟨rfl, rfl, ?_, ?_, rfl⟩
  · simp [getStatsRaw, c1store, decodeOrZero, Expense.goZero]
  · unfold validCatOrder
    have hcs : categorySpending (decodedExpenses c1store) = [("", 0)] := by
      simp [categorySpending, decodedExpenses, c1store, decodeOrZero, addCat,
        Expense.goZero]
    rw [hcs]

/-- Claim C1 as amended: a decode error during a scan does abort the list
endpoints with 500, but the stats and dashboard handlers ignore every scan
and decode error and always respond 200, aggregating over the records as
decoded (undecodable ones as Go zero values); no 500 is possible there and
the aggregate can silently reflect only part of the stored data. -/
theorem C1_amended_aggregation_never_500
    (s : RawStore) (o : List (String × ℚ))
    (pre rest : RawBucket Expense) (k : String) :
    (getStatsRaw s.expenses s.budgets).statusCode = 200 ∧
    (getDashboardData o s).statusCode = 200 ∧
    (getExpensesRaw (pre ++ (k, none) :: rest)).statusCode = 500 := by
  refine ⟨rfl, rfl, ?_⟩
  simp [getExpensesRaw, scanDecode_append_corrupt, ApiResult.statusCode]

/-- The spending map of the fixture store, in first-seen order. -/
theorem c3store_categorySpending :
    categorySpending (decodedExpenses c3store) = [("groceries", 150), ("dining", 25)] := by
  have h : (100 : ℚ) + 50 = 150 := by norm_num
  simp +decide [categorySpending, decodedExpenses, c3store, c3e1, c3e2, c3e3,
    decodeOrZero, addCat, Expense.goZero, h]

/-- The first-seen order is a valid map-range order for the fixture. -/
theorem c3store_validOrder1 : validCatOrder c3store c3o1 := by
  unfold validCatOrder
  rw [c3store_categorySpending]
  exact List.Perm.refl _

/-- The reversed order is also a valid map-range order for the fixture. -/
theorem c3store_validOrder2 : validCatOrder c3store c3o2 := by
  unfold validCatOrder
  rw [c3store_categorySpending]
  exact List.Perm.swap _ _ _

/-- Counterexample to claim C3: categoryData is built by ranging over a Go
map, whose iteration order is not deterministic; two valid range orders
over the same stored data yield different dashboard responses — the entry
order and the palette colors assigned to the categories differ — refuting
two-run determinism and the fixed first-seen color assignment. -/
theorem C3_counterexample :
    validCatOrder c3store c3o1 ∧ validCatOrder c3store c3o2 ∧
    getDashboardData c3o1 c3store ≠ getDashboardData c3o2 c3store := by
  refine ⟨c3store_validOrder1, c3store_validOrder2, ?_⟩
  intro heq
  have hcd := congrArg
    (fun r => match r with
      | ApiResult.ok _ p => p.categoryData
      | ApiResult.err _ _ => ([] : List CategoryEntry)) heq
  simp only [getDashboardData] at hcd
  have hL : buildCategoryData (categoryColors (decodedExpenses c3store)) c3o1 0
      = [{ name := "groceries", value := 150, color := "#22c55e" },
         { name := "dining", value := 25, color := "#ef4444" }] := by
    simp +decide [buildCategoryData, categoryColors, decodedExpenses, c3store,
      c3e1, c3e2, c3e3, decodeOrZero, Expense.goZero, c3o1, bucketGet, defaultColors]
  have hR : buildCategoryData (categoryColors (decodedExpenses c3store)) c3o2 0
      = [{ name := "dining", value := 25, color := "#22c55e" },
         { name := "groceries", value := 150, color := "#ef4444" }] := by
    simp +decide [buildCategoryData, categoryColors, decodedExpenses, c3store,
      c3e1, c3e2, c3e3, decodeOrZero, Expense.goZero, c3o2, bucketGet, defaultColors]
  rw [hL, hR] at hcd
  exact absurd hcd (by decide)

/-- Claim C3 as amended: for every store and every valid map-range order,
categoryData has exactly one entry per distinct expense category (its
names are duplicate-free), each carrying the sum of the amounts in that category, and its name/value pairs are a permutation of the
first-seen-ordered spending map; the dashboard always answers 200 and its
categoryData of the payload is the built list.  The entry order and the palette
colors assigned to categories without a carried categoryColor follow the
map-range order, which Go does not keep deterministic across calls (see
the counterexample). -/
theorem C3_amended_category_aggregation (s : RawStore) (o : List (String × ℚ))
    (hvalid : validCatOrder s o) :
    ((buildCategoryData (categoryColors (decodedExpenses s)) o 0).map
        (fun c => (c.name, c.value))).Perm (categorySpending (decodedExpenses s)) ∧
    ((buildCategoryData (categoryColors (decodedExpenses s)) o 0).map
        CategoryEntry.name).Nodup ∧
    (∀ cat q, (cat, q) ∈ (buildCategoryData (categoryColors (decodedExpenses s)) o 0).map
        (fun c => (c.name, c.value)) ↔
      (cat ∈ (decodedExpenses s).map Expense.category ∧
        q = categoryTotal (decodedExpenses s) cat)) ∧
    (∀ st p, getDashboardData o s = ApiResult.ok st p →
      p.categoryData = buildCategoryData (categoryColors (decodedExpenses s)) o 0) ∧
    (getDashboardData o s).statusCode = 200 := by
  refine ⟨?_, ?_, ?_, ?_, rfl⟩
  · rw [buildCategoryData_map_nameValue]
    exact hvalid
  · rw [buildCategoryData_map_name]
    exact ((hvalid.map Prod.fst).nodup_iff).mpr
      (nodup_keys_categorySpending (decodedExpenses s))
  · intro cat q
    rw [buildCategoryData_map_nameValue, List.Perm.mem_iff hvalid]
    exact mem_categorySpending_iff (decodedExpenses s) cat q
  · intro st p h
    injection h with h1 h2
    subst h2
    rfl

/-- Witness for the amended C3 at the example store from the spec, iterated in
first-seen order. -/
theorem C3_amended_category_aggregation_witness :
    validCatOrder c3store c3o1 ∧
    ((buildCategoryData (categoryColors (decodedExpenses c3store)) c3o1 0).map
        (fun c => (c.name, c.value))).Perm (categorySpending (decodedExpenses c3store)) ∧
    ((buildCategoryData (categoryColors (decodedExpenses c3store)) c3o1 0).map
        CategoryEntry.name).Nodup ∧
    (∀ cat q, (cat, q) ∈ (buildCategoryData (categoryColors (decodedExpenses c3store)) c3o1 0).map
        (fun c => (c.name, c.value)) ↔
      (cat ∈ (decodedExpenses c3store).map Expense.category ∧
        q = categoryTotal (decodedExpenses c3store) cat)) ∧
    (getDashboardData c3o1 c3store).statusCode = 200 := by
  have h := C3_amended_category_aggregation c3store c3o1 c3store_validOrder1
  exact ⟨c3store_validOrder1, h.1, h.2.1, h.2.2.1, h.2.2.2.2⟩

end FinApp
